import Mathlib

/-!
# Verification of the Random Map Picker search routine

Shallow embedding of the script of `src/randomMap/src/routes/+page.svelte`.

Modelling conventions:
* JavaScript numbers that the routine handles are machine floats; every
  value the claims touch is a small integer, so numbers are embedded as
  `Int` (and `Math.random()`'s value as an exact rational in `[0, 1)`).
  `parseInt` returning `NaN` is embedded as `Option.none`.
* Network effects are embedded as an explicit environment (`Env`) giving
  the outcome of each HTTP request a search performs: the one
  `GET /maps/latest` call, and for every loop iteration `k` the outcome of
  the existence probe and of the detail fetch that iteration would issue.
* The `while (attempts < maxAttempts)` loop is embedded as structural
  recursion on the remaining iteration count
  (`budget = maxAttempts - attempts`).
-/

namespace RandomMap

/-- The lowercase hexadecimal digit character for `d < 16`
(`'0'`–`'9'` are code points 48–57, `'a'`–`'f'` are 97–102). -/
def toHexDigitChar (d : Nat) : Char :=
  if d < 10 then Char.ofNat (48 + d) else Char.ofNat (87 + d)

/-- Little-endian base-16 digits of `n`; always at least one digit. -/
def natHexDigitsLE (n : Nat) : List Nat :=
  if h : n < 16 then [n]
  else n % 16 :: natHexDigitsLE (n / 16)
termination_by n
decreasing_by exact Nat.div_lt_self (by omega) (by omega)

/-- Model of `Number.prototype.toString(16)` on a non-negative integer: the minimal
lowercase hexadecimal representation. -/
def natToHexStr (n : Nat) : String :=
  ⟨((natHexDigitsLE n).map toHexDigitChar).reverse⟩

/-- Model of `Number.prototype.toString(16)` on an integer (negative values are
rendered with a leading minus sign). -/
def intToHexStr (d : Int) : String :=
  if d < 0 then "-" ++ natToHexStr d.natAbs else natToHexStr d.toNat

/-- Model of `String.prototype.padStart(len, c)`. -/
def padStartStr (s : String) (len : Nat) (c : Char) : String :=
  ⟨List.replicate (len - s.data.length) c⟩ ++ s

/-- Lines 60–62: `decimal.toString(16).padStart(1, '0')`. -/
def decimalToHex (decimal : Int) : String :=
  padStartStr (intToHexStr decimal) 1 '0'

/-- The numeric value of one hexadecimal digit character
(case-insensitive), `none` for a non-digit. -/
def hexDigitVal (c : Char) : Option Nat :=
  if 48 ≤ c.toNat ∧ c.toNat ≤ 57 then some (c.toNat - 48)
  else if 97 ≤ c.toNat ∧ c.toNat ≤ 102 then some (c.toNat - 87)
  else if 65 ≤ c.toNat ∧ c.toNat ≤ 70 then some (c.toNat - 55)
  else none

/-- The longest prefix of hexadecimal digits, as digit values. -/
def takeHexDigits : List Char → List Nat
  | [] => []
  | c :: cs =>
    match hexDigitVal c with
    | some d => d :: takeHexDigits cs
    | none => []

/-- Value of a big-endian base-16 digit list. -/
def ofHexDigitsBE (ds : List Nat) : Nat :=
  ds.foldl (fun a d => 16 * a + d) 0

/-- Value of a little-endian base-16 digit list. -/
def ofHexDigitsLE : List Nat → Nat
  | [] => 0
  | d :: ds => d + 16 * ofHexDigitsLE ds

/-- JavaScript string whitespace, restricted to the ASCII whitespace
characters (space, tab, line feed, carriage return); the full Unicode
whitespace set is irrelevant to the identifiers this routine handles. -/
def isJsSpace (c : Char) : Bool :=
  c.toNat == 32 || c.toNat == 9 || c.toNat == 10 || c.toNat == 13

/-- Leading sign handling of `parseInt`. -/
def stripSign (cs : List Char) : Int × List Char :=
  match cs with
  | c :: rest =>
    if c = '-' then (-1, rest)
    else if c = '+' then (1, rest)
    else (1, c :: rest)
  | [] => (1, [])

/-- With radix 16, `parseInt` allows an optional `0x` / `0X` prefix. -/
def strip0x (cs : List Char) : List Char :=
  match cs with
  | c₀ :: c₁ :: rest => if c₀ = '0' ∧ (c₁ = 'x' ∨ c₁ = 'X') then rest else cs
  | _ => cs

/-- Model of `parseInt(s, 16)`: skip leading whitespace, read an optional sign and
an optional `0x` prefix, then the longest prefix of hexadecimal digits;
`NaN` (here `none`) when no digit is found. -/
def parseInt16 (s : String) : Option Int :=
  let cs := s.data.dropWhile isJsSpace
  let sc := stripSign cs
  let ds := takeHexDigits (strip0x sc.2)
  if ds = [] then none else some (sc.1 * (ofHexDigitsBE ds : Int))

/-- Lines 56–58: `parseInt(hex, 16)`. -/
def hexToDecimal (hex : String) : Option Int :=
  parseInt16 hex

/-- Lines 64–66: `Math.floor(Math.random() * (max - min + 1)) + min`,
with the value of `Math.random()` passed in as an exact rational. -/
def getRandomNumber (min max : Int) (u : ℚ) : Int :=
  ⌊u * ((max : ℚ) - (min : ℚ) + 1)⌋ + min

/-- A lowercase hexadecimal digit character
(`'0'`–`'9'` are code points 48–57, `'a'`–`'f'` are 97–102). -/
def IsLowerHexDigit (c : Char) : Prop :=
  (48 ≤ c.toNat ∧ c.toNat ≤ 57) ∨ (97 ≤ c.toNat ∧ c.toNat ≤ 102)

instance (c : Char) : Decidable (IsLowerHexDigit c) := by
  unfold IsLowerHexDigit; exact inferInstance

/-- Digit value of a lowercase hexadecimal digit character. -/
def valueOfLowerHex (c : Char) : Nat :=
  if c.toNat ≤ 57 then c.toNat - 48 else c.toNat - 87

/-! ## The search routine and its environment -/

/-- Difficulty entry of a version (lines 15–18). -/
structure DiffInfo where
  difficulty : String
  stars : Int
deriving DecidableEq

/-- Version entry (lines 13–19). -/
structure VersionInfo where
  coverURL : String
  diffs : List DiffInfo
deriving DecidableEq

/-- Metadata record (lines 20–27). -/
structure MapMetadata where
  bpm : Int
  duration : Int
  songName : String
  songSubName : String
  songAuthorName : String
  levelAuthorName : String
deriving DecidableEq

/-- Stats record (lines 28–33). -/
structure MapStats where
  plays : Int
  downloads : Int
  upvotes : Int
  downvotes : Int
deriving DecidableEq

/-- The `MapDetails` interface (lines 4–34). -/
structure MapDetails where
  id : String
  name : String
  description : Option String
  curator : Option String
  uploaded : String
  automapper : Bool
  ranked : Bool
  qualified : Bool
  versions : List VersionInfo
  metadata : MapMetadata
  stats : MapStats
deriving DecidableEq

/-- Outcome of one `fetch` call: the promise resolves with a 2xx response
carrying `body`, resolves with a non-2xx response (`response.ok` false),
or rejects with a network error whose `Error` has message `msg`. -/
inductive FetchResult (α : Type) where
  | ok (body : α)
  | httpError
  | netError (msg : String)
deriving DecidableEq

/-- Outcome of `response.json()` on the detail fetch: a value that
deserializes into `MapDetails`, the falsy value `null`, or a rejection
(body parse failure) with message `msg`. -/
inductive JsonBody where
  | value (m : MapDetails)
  | nullBody
  | parseError (msg : String)
deriving DecidableEq

/-- Outcome of the detail fetch of line 100: a response with its
`response.ok` flag and the outcome of reading its JSON body, or a network
failure of the `fetch` itself. -/
inductive DetailResult where
  | resp (ok : Bool) (body : JsonBody)
  | netError (msg : String)
deriving DecidableEq

/-- The remote world one search invocation runs against: the outcome of
the `GET /maps/latest` call (its body abstracted to `docs[0].id`), the
value of `Math.random()` drawn at loop iteration `k`, and the outcomes of
the existence probe and of the detail fetch that iteration `k` would
perform. -/
structure Env where
  latest : FetchResult String
  rand : Nat → ℚ
  probe : Nat → FetchResult Unit
  detail : Nat → DetailResult

/-- Lines 40–45: return `data.docs[0].id` on success; on a non-2xx
response throw `Error('Failed to fetch latest map')`; a rejected `fetch`
propagates its own error message. -/
def fetchLatestMapId (r : FetchResult String) : Except String String :=
  match r with
  | .ok id => .ok id
  | .httpError => .error "Failed to fetch latest map"
  | .netError msg => .error msg

/-- Lines 47–54: `response.ok` of the probe; any thrown network error is
caught and turned into `false`. -/
def checkMapExists (r : FetchResult Unit) : Bool :=
  match r with
  | .ok _ => true
  | .httpError => false
  | .netError _ => false

/-- Line 92: `const maxAttempts = 10`. -/
def maxAttempts : Nat := 10

/-- Line 109: the not-found error message. -/
def notFoundMsg : String := "Could not find a valid map after multiple attempts"

/-- Lines 95–96: the identifier probed at one iteration. When `maxDecimal`
is `NaN` (`none`), the JavaScript arithmetic propagates `NaN` and
`NaN.toString(16)` is the string `"NaN"`. -/
def candidateHex (maxD : Option Int) (u : ℚ) : String :=
  match maxD with
  | some m => decimalToHex (getRandomNumber 1 m u)
  | none => "NaN"

/-- How one loop iteration ends once its probe reported existence, or the
loop exits. -/
inductive LoopOutcome where
  | broke (randomMap : Option MapDetails)
  | exhausted
  | thrown (msg : String)
deriving DecidableEq

/-- Lines 100–102: the detail fetch. The response status is NOT inspected
(`response.ok` is ignored); `response.json()` is awaited, so a rejected
fetch or a body-parse failure throws, and otherwise `randomMap` is
assigned the parsed body (which may be `null`) before `break`. -/
def detailOutcome (r : DetailResult) : LoopOutcome :=
  match r with
  | .netError msg => .thrown msg
  | .resp _ (.parseError msg) => .thrown msg
  | .resp _ (.value m) => .broke (some m)
  | .resp _ .nullBody => .broke none

/-- Lines 91–106: the `while (attempts < maxAttempts)` probe loop. `k` is
the current value of `attempts` (it also indexes the per-iteration
environment outcomes); `budget` is `maxAttempts - attempts`, the number of
remaining iterations. Returns the loop outcome, the list of identifiers
probed (in order), and the number of detail fetches performed. -/
def runLoop (env : Env) (maxD : Option Int) : Nat → Nat → LoopOutcome × List String × Nat
  | _, 0 => (.exhausted, [], 0)
  | k, budget + 1 =>
    let hex := candidateHex maxD (env.rand k)
    if checkMapExists (env.probe k) then
      (detailOutcome (env.detail k), [hex], 1)
    else
      let r := runLoop env maxD (k + 1) budget
      (r.1, hex :: r.2.1, r.2.2)

/-- The transient UI state the routine settles (lines 36–38). -/
structure UIState where
  randomMap : Option MapDetails
  isLoading : Bool
  error : Option String
deriving DecidableEq

/-- Final state of one search plus its observable request trace. -/
structure SearchLog where
  state : UIState
  probedIds : List String
  detailCalls : Nat
deriving DecidableEq

/-- Lines 101 and 108–115: how the loop outcome settles the UI state.
`broke (some m)` is line 101's successful assignment; `broke none` leaves
`randomMap` null so line 109 throws the not-found error; `exhausted`
likewise; a thrown message is caught at line 112 (every thrown value here
is an `Error`, so its `message` is surfaced); the `finally` at line 114
clears `isLoading` on every path. -/
def settleOutcome (out : LoopOutcome) : UIState :=
  match out with
  | .broke (some m) => ⟨some m, false, none⟩
  | .broke none => ⟨none, false, some notFoundMsg⟩
  | .exhausted => ⟨none, false, some notFoundMsg⟩
  | .thrown msg => ⟨none, false, some msg⟩

/-- Lines 82–116: one invocation of `findRandomMap`, as a function from
the environment to the settled UI state and the request trace. A failure
of `fetchLatestMapId` is caught at line 111 before any probe runs. -/
def findRandomMap (env : Env) : SearchLog :=
  match fetchLatestMapId env.latest with
  | .error msg => ⟨⟨none, false, some msg⟩, [], 0⟩
  | .ok latestMapId =>
    let maxDecimal := hexToDecimal latestMapId
    let r := runLoop env maxDecimal 0 maxAttempts
    ⟨settleOutcome r.1, r.2.1, r.2.2⟩

/-! ## Concrete scenario fixtures -/

/-- A sample catalog item used in concrete scenarios. -/
def sampleMapA : MapDetails :=
  ⟨"a", "Sample A", none, none, "2020-01-01", false, false, false, [],
    ⟨120, 180, "Song", "", "Artist", "Mapper"⟩, ⟨10, 20, 3, 1⟩⟩

/-- A second sample catalog item used in concrete scenarios. -/
def sampleMapB : MapDetails :=
  ⟨"b", "Sample B", some "desc", none, "2021-06-15", true, false, false, [],
    ⟨90, 95, "Tune", "Sub", "Band", "Author"⟩, ⟨1, 2, 3, 4⟩⟩

/-- Scenario: probe succeeds at once, but the detail re-fetch resolves with a
non-success status whose body still parses to item data. -/
def envDetail502 : Env :=
  ⟨.ok "10", fun _ => 0, fun _ => .ok (), fun _ => .resp false (.value sampleMapB)⟩

/-- Scenario: probe succeeds at once, but the detail re-fetch fails with a
network error. -/
def envDetailNet : Env :=
  ⟨.ok "10", fun _ => 0, fun _ => .ok (), fun _ => .netError "ECONNRESET"⟩

/-- Scenario: the latest-item lookup fails with a network error. -/
def envNetDown : Env :=
  ⟨.netError "NetworkDown", fun _ => 0, fun _ => .httpError, fun _ => .resp true .nullBody⟩

/-- Scenario: the latest-item lookup resolves with HTTP 500. -/
def envHttp500 : Env :=
  ⟨.httpError, fun _ => 0, fun _ => .httpError, fun _ => .resp true .nullBody⟩

/-- Scenario: every existence probe reports non-existence. -/
def envAllMiss : Env :=
  ⟨.ok "10", fun _ => 0, fun _ => .httpError, fun _ => .resp true .nullBody⟩

/-- Scenario: the first existence probe reports existence and the detail fetch
returns item data. -/
def envHit : Env :=
  ⟨.ok "10", fun _ => 0, fun _ => .ok (), fun _ => .resp true (.value sampleMapA)⟩

/-- Scenario: every existence probe fails with a network error. -/
def envProbeErr : Env :=
  ⟨.ok "10", fun _ => 0, fun _ => .netError "socket closed", fun _ => .resp true .nullBody⟩

/-! ## Facts about hexadecimal digit characters -/

theorem hexDigitVal_toHexDigitChar : ∀ d < 16, hexDigitVal (toHexDigitChar d) = some d := by
  decide

theorem isLowerHex_toHexDigitChar : ∀ d < 16, IsLowerHexDigit (toHexDigitChar d) := by
  decide

theorem toHexDigitChar_ne_zero : ∀ d < 16, d ≠ 0 → toHexDigitChar d ≠ '0' := by
  decide

theorem hexDigitVal_of_lower {c : Char} (h : IsLowerHexDigit c) :
    hexDigitVal c = some (valueOfLowerHex c) := by
  unfold hexDigitVal valueOfLowerHex
  rcases h with ⟨h1, h2⟩ | ⟨h1, h2⟩ <;> split_ifs <;> first | rfl | (exfalso; omega)

theorem valueOfLowerHex_lt {c : Char} (h : IsLowerHexDigit c) : valueOfLowerHex c < 16 := by
  unfold valueOfLowerHex
  rcases h with ⟨h1, h2⟩ | ⟨h1, h2⟩ <;> split_ifs <;> omega

theorem toHexDigitChar_valueOfLowerHex {c : Char} (h : IsLowerHexDigit c) :
    toHexDigitChar (valueOfLowerHex c) = c := by
  rcases h with ⟨h1, h2⟩ | ⟨h1, h2⟩
  · rw [show valueOfLowerHex c = c.toNat - 48 by unfold valueOfLowerHex; rw [if_pos h2]]
    unfold toHexDigitChar
    rw [if_pos (by omega), show 48 + (c.toNat - 48) = c.toNat by omega, Char.ofNat_toNat]
  · rw [show valueOfLowerHex c = c.toNat - 87 by unfold valueOfLowerHex; rw [if_neg (by omega)]]
    unfold toHexDigitChar
    rw [if_neg (by omega), show 87 + (c.toNat - 87) = c.toNat by omega, Char.ofNat_toNat]

theorem lower_not_space {c : Char} (h : IsLowerHexDigit c) : isJsSpace c = false := by
  unfold isJsSpace
  rcases h with ⟨h1, h2⟩ | ⟨h1, h2⟩ <;> simp <;> omega

theorem lower_ne_special {c : Char} (h : IsLowerHexDigit c) :
    c ≠ '-' ∧ c ≠ '+' ∧ c ≠ 'x' ∧ c ≠ 'X' := by
  refine ⟨?_, ?_, ?_, ?_⟩ <;> rintro rfl <;> revert h <;> decide

theorem lower_value_ne_zero {c : Char} (h : IsLowerHexDigit c) (h0 : c ≠ '0') :
    valueOfLowerHex c ≠ 0 := by
  unfold valueOfLowerHex
  rcases h with ⟨h1, h2⟩ | ⟨h1, h2⟩
  · rw [if_pos h2]
    intro hz
    apply h0
    have hv : c.toNat = 48 := by omega
    calc c = Char.ofNat c.toNat := (Char.ofNat_toNat c).symm
    _ = '0' := by rw [hv]
  · rw [if_neg (by omega)]
    omega

/-! ## Facts about hexadecimal digit lists -/

theorem natHexDigitsLE_ne_nil (n : Nat) : natHexDigitsLE n ≠ [] := by
  unfold natHexDigitsLE
  split <;> simp

theorem natHexDigitsLE_lt : ∀ n : Nat, ∀ d ∈ natHexDigitsLE n, d < 16 := by
  intro n
  induction n using Nat.strong_induction_on with
  | _ n ih =>
    unfold natHexDigitsLE
    split
    · rename_i h
      intro d hd
      simp at hd
      omega
    · rename_i h
      intro d hd
      rcases List.mem_cons.mp hd with rfl | hd
      · exact Nat.mod_lt _ (by omega)
      · exact ih (n / 16) (Nat.div_lt_self (by omega) (by omega)) d hd

theorem ofHexDigitsLE_natHexDigitsLE : ∀ n : Nat, ofHexDigitsLE (natHexDigitsLE n) = n := by
  intro n
  induction n using Nat.strong_induction_on with
  | _ n ih =>
    unfold natHexDigitsLE
    split
    · simp [ofHexDigitsLE]
    · rename_i h
      simp only [ofHexDigitsLE]
      rw [ih (n / 16) (Nat.div_lt_self (by omega) (by omega))]
      omega

theorem natHexDigitsLE_getLast?_ne_zero : ∀ n : Nat, 1 ≤ n →
    (natHexDigitsLE n).getLast? ≠ some 0 := by
  intro n
  induction n using Nat.strong_induction_on with
  | _ n ih =>
    intro h
    unfold natHexDigitsLE
    split
    · rename_i h16
      simp
      omega
    · rename_i h16
      obtain ⟨d, ds, hds⟩ := List.exists_cons_of_ne_nil (natHexDigitsLE_ne_nil (n / 16))
      rw [hds, List.getLast?_cons_cons, ← hds]
      exact ih (n / 16) (Nat.div_lt_self (by omega) (by omega)) (by omega)

theorem ofHexDigitsLE_pos : ∀ ds : List Nat, ds ≠ [] → ds.getLast? ≠ some 0 →
    1 ≤ ofHexDigitsLE ds
  | [], h, _ => absurd rfl h
  | [d], _, hl => by
      simp only [ofHexDigitsLE]
      simp at hl
      omega
  | d :: d' :: tl, _, hl => by
      have hrec := ofHexDigitsLE_pos (d' :: tl) (by simp)
        (by rw [← List.getLast?_cons_cons (a := d)]; exact hl)
      show 1 ≤ d + 16 * ofHexDigitsLE (d' :: tl)
      omega

theorem natHexDigitsLE_ofHexDigitsLE :
    ∀ ds : List Nat, ds ≠ [] → (∀ d ∈ ds, d < 16) →
      (ds.getLast? ≠ some 0 ∨ ds.length = 1) →
      natHexDigitsLE (ofHexDigitsLE ds) = ds
  | [], h, _, _ => absurd rfl h
  | [d], _, hlt, _ => by
      have hd : d < 16 := hlt d (by simp)
      have hv : ofHexDigitsLE [d] = d := by simp [ofHexDigitsLE]
      rw [hv]
      unfold natHexDigitsLE
      rw [dif_pos hd]
  | d :: d' :: tl, _, hlt, hcan => by
      have hlast : (d :: d' :: tl).getLast? ≠ some 0 := by
        rcases hcan with h | h
        · exact h
        · simp at h
      have hlast' : (d' :: tl).getLast? ≠ some 0 := by
        rw [← List.getLast?_cons_cons (a := d)]; exact hlast
      have hw : 1 ≤ ofHexDigitsLE (d' :: tl) := ofHexDigitsLE_pos _ (by simp) hlast'
      have hd : d < 16 := hlt d (by simp)
      have hv : ofHexDigitsLE (d :: d' :: tl) = d + 16 * ofHexDigitsLE (d' :: tl) := rfl
      rw [hv]
      unfold natHexDigitsLE
      rw [dif_neg (by omega)]
      rw [show (d + 16 * ofHexDigitsLE (d' :: tl)) % 16 = d by omega]
      rw [show (d + 16 * ofHexDigitsLE (d' :: tl)) / 16 = ofHexDigitsLE (d' :: tl) by omega]
      rw [natHexDigitsLE_ofHexDigitsLE (d' :: tl) (by simp)
        (fun x hx => hlt x (List.mem_cons_of_mem _ hx)) (Or.inl hlast')]

theorem ofHexDigitsBE_reverse : ∀ ds : List Nat, ofHexDigitsBE ds.reverse = ofHexDigitsLE ds
  | [] => rfl
  | d :: ds => by
      have hrec := ofHexDigitsBE_reverse ds
      simp only [List.reverse_cons, ofHexDigitsBE, List.foldl_append, List.foldl_cons,
        List.foldl_nil] at hrec ⊢
      simp only [ofHexDigitsLE]
      omega

theorem ofHexDigitsBE_eq (ds : List Nat) : ofHexDigitsBE ds = ofHexDigitsLE ds.reverse := by
  rw [← ofHexDigitsBE_reverse ds.reverse, List.reverse_reverse]

theorem takeHexDigits_of_lower : ∀ cs : List Char, (∀ c ∈ cs, IsLowerHexDigit c) →
    takeHexDigits cs = cs.map valueOfLowerHex
  | [], _ => rfl
  | c :: cs, h => by
      have hc := h c (by simp)
      unfold takeHexDigits
      rw [hexDigitVal_of_lower hc]
      simp only [List.map_cons]
      rw [takeHexDigits_of_lower cs (fun x hx => h x (List.mem_cons_of_mem _ hx))]

theorem valueOfLowerHex_toHexDigitChar : ∀ d < 16, valueOfLowerHex (toHexDigitChar d) = d := by
  decide

/-! ## Parsing and printing canonical hexadecimal strings -/

theorem parseInt16_all_lower (cs : List Char) (hne : cs ≠ [])
    (hlower : ∀ c ∈ cs, IsLowerHexDigit c) :
    parseInt16 ⟨cs⟩ = some ((ofHexDigitsLE ((cs.map valueOfLowerHex).reverse) : Nat) : Int) := by
  obtain ⟨c, rest, rfl⟩ := List.exists_cons_of_ne_nil hne
  have hc := hlower c (by simp)
  have hdrop : (c :: rest).dropWhile isJsSpace = c :: rest := by
    rw [List.dropWhile_cons, lower_not_space hc]
    simp
  have hsign : stripSign (c :: rest) = (1, c :: rest) := by
    show (if c = '-' then ((-1 : Int), rest) else if c = '+' then (1, rest) else (1, c :: rest)) =
      (1, c :: rest)
    rw [if_neg (lower_ne_special hc).1, if_neg (lower_ne_special hc).2.1]
  have hstrip : strip0x (c :: rest) = c :: rest := by
    cases rest with
    | nil => rfl
    | cons c' r =>
      have hc' := hlower c' (by simp)
      show (if c = '0' ∧ (c' = 'x' ∨ c' = 'X') then r else c :: c' :: r) = c :: c' :: r
      rw [if_neg]
      rintro ⟨hc0, hx | hx⟩
      · exact (lower_ne_special hc').2.2.1 hx
      · exact (lower_ne_special hc').2.2.2 hx
  have htake : takeHexDigits (c :: rest) = (c :: rest).map valueOfLowerHex :=
    takeHexDigits_of_lower _ hlower
  have hne' : (c :: rest).map valueOfLowerHex ≠ [] := by simp
  unfold parseInt16
  simp only [show (String.mk (c :: rest)).data = c :: rest from rfl, hdrop, hsign, hstrip, htake]
  rw [if_neg hne', one_mul, ofHexDigitsBE_eq]

theorem natToHexStr_ofLE (ds : List Nat) (hne : ds ≠ []) (hlt : ∀ d ∈ ds, d < 16)
    (hcan : ds.getLast? ≠ some 0 ∨ ds.length = 1) :
    natToHexStr (ofHexDigitsLE ds) = ⟨(ds.map toHexDigitChar).reverse⟩ := by
  unfold natToHexStr
  rw [natHexDigitsLE_ofHexDigitsLE ds hne hlt hcan]

theorem natToHexStr_ne_empty (n : Nat) : (natToHexStr n).data ≠ [] := by
  unfold natToHexStr
  simp [natHexDigitsLE_ne_nil n]

theorem intToHexStr_nonneg {n : Int} (h : 0 ≤ n) : intToHexStr n = natToHexStr n.toNat := by
  unfold intToHexStr
  rw [if_neg (by omega)]

theorem decimalToHex_eq_natToHexStr {n : Int} (h : 0 ≤ n) :
    decimalToHex n = natToHexStr n.toNat := by
  unfold decimalToHex padStartStr
  rw [intToHexStr_nonneg h]
  have hlen : (natToHexStr n.toNat).data.length ≠ 0 := by
    intro h0
    exact natToHexStr_ne_empty n.toNat (List.length_eq_zero.mp h0)
  rw [show 1 - (natToHexStr n.toNat).data.length = 0 by omega]
  apply String.ext
  simp

theorem hexToDecimal_natToHexStr (n : Nat) : hexToDecimal (natToHexStr n) = some (n : Int) := by
  have hlt := natHexDigitsLE_lt n
  have hlower : ∀ c ∈ ((natHexDigitsLE n).map toHexDigitChar).reverse, IsLowerHexDigit c := by
    intro c hcmem
    rw [List.mem_reverse] at hcmem
    obtain ⟨d, hd, rfl⟩ := List.mem_map.mp hcmem
    exact isLowerHex_toHexDigitChar d (hlt d hd)
  have hne : ((natHexDigitsLE n).map toHexDigitChar).reverse ≠ [] := by
    simp [natHexDigitsLE_ne_nil n]
  unfold hexToDecimal natToHexStr
  rw [parseInt16_all_lower _ hne hlower]
  rw [List.map_reverse, List.reverse_reverse, List.map_map]
  rw [show List.map (valueOfLowerHex ∘ toHexDigitChar) (natHexDigitsLE n) = natHexDigitsLE n from
    (List.map_congr_left (fun d hd => valueOfLowerHex_toHexDigitChar d (hlt d hd))).trans
      (List.map_id _)]
  rw [ofHexDigitsLE_natHexDigitsLE]

theorem natToHexStr_data (n : Nat) :
    (natToHexStr n).data = ((natHexDigitsLE n).map toHexDigitChar).reverse := rfl

/-! ## Claims about the numeric conversions -/

/-- Claim C6: for every integer `n` in `[1, 0xFFFFFF]`,
`hexToDecimal (decimalToHex n) = n`. -/
theorem hexToDecimal_decimalToHex_roundtrip (n : Int) (h1 : 1 ≤ n) (h2 : n ≤ 0xFFFFFF) :
    hexToDecimal (decimalToHex n) = some n := by
  rw [decimalToHex_eq_natToHexStr (by omega), hexToDecimal_natToHexStr,
    Int.toNat_of_nonneg (by omega)]

theorem hexToDecimal_decimalToHex_roundtrip_witness :
    hexToDecimal (decimalToHex 255) = some 255 :=
  hexToDecimal_decimalToHex_roundtrip 255 (by norm_num) (by norm_num)

/-- Claim C7: for every positive integer input, `decimalToHex` returns a non-empty
all-lowercase hexadecimal string whose first character is not `'0'` (no leading
zeros beyond the single-digit minimum). -/
theorem decimalToHex_canonical (n : Int) (h : 1 ≤ n) :
    (decimalToHex n).data ≠ [] ∧ (∀ c ∈ (decimalToHex n).data, IsLowerHexDigit c) ∧
      (decimalToHex n).data.head? ≠ some '0' := by
  rw [decimalToHex_eq_natToHexStr (by omega)]
  have hlt := natHexDigitsLE_lt n.toNat
  refine ⟨natToHexStr_ne_empty _, ?_, ?_⟩
  · intro c hcmem
    rw [natToHexStr_data, List.mem_reverse] at hcmem
    obtain ⟨d, hd, rfl⟩ := List.mem_map.mp hcmem
    exact isLowerHex_toHexDigitChar d (hlt d hd)
  · rw [natToHexStr_data, List.head?_reverse, List.getLast?_map]
    obtain ⟨d, hd⟩ := Option.isSome_iff_exists.mp
      (List.getLast?_isSome.mpr (natHexDigitsLE_ne_nil n.toNat))
    have hdlt : d < 16 := hlt d (List.mem_of_getLast?_eq_some hd)
    have hdne : d ≠ 0 := by
      have := natHexDigitsLE_getLast?_ne_zero n.toNat (by omega)
      intro h0
      rw [h0] at hd
      exact this hd
    rw [hd]
    simp only [Option.map_some', ne_eq, Option.some.injEq]
    exact toHexDigitChar_ne_zero d hdlt hdne

theorem decimalToHex_canonical_witness :
    (decimalToHex 255).data ≠ [] ∧ (∀ c ∈ (decimalToHex 255).data, IsLowerHexDigit c) ∧
      (decimalToHex 255).data.head? ≠ some '0' :=
  decimalToHex_canonical 255 (by norm_num)

/-- Claim C10: for every non-empty lowercase hexadecimal string with no leading
zeros beyond the single-digit minimum, parsing it and re-rendering restores the
exact string: `decimalToHex (hexToDecimal s) = s`. -/
theorem decimalToHex_hexToDecimal_roundtrip (s : String) (hne : s.data ≠ [])
    (hlower : ∀ c ∈ s.data, IsLowerHexDigit c)
    (hcanon : s.data.head? ≠ some '0' ∨ s.data.length = 1) :
    ∃ n : Int, hexToDecimal s = some n ∧ decimalToHex n = s := by
  obtain ⟨cs⟩ := s
  simp only at hne hlower hcanon
  refine ⟨(ofHexDigitsLE ((cs.map valueOfLowerHex).reverse) : Nat), ?_, ?_⟩
  · exact parseInt16_all_lower cs hne hlower
  · rw [decimalToHex_eq_natToHexStr (by positivity), Int.toNat_ofNat]
    have hds_ne : (cs.map valueOfLowerHex).reverse ≠ [] := by simp [hne]
    have hds_lt : ∀ d ∈ (cs.map valueOfLowerHex).reverse, d < 16 := by
      intro d hd
      rw [List.mem_reverse] at hd
      obtain ⟨c, hc, rfl⟩ := List.mem_map.mp hd
      exact valueOfLowerHex_lt (hlower c hc)
    have hds_canon : ((cs.map valueOfLowerHex).reverse).getLast? ≠ some 0 ∨
        ((cs.map valueOfLowerHex).reverse).length = 1 := by
      rcases hcanon with hhd | hlen
      · left
        rw [List.getLast?_reverse, List.head?_map]
        obtain ⟨c, rest, rfl⟩ := List.exists_cons_of_ne_nil hne
        simp only [List.head?_cons, Option.map_some', ne_eq, Option.some.injEq]
        have hc0 : c ≠ '0' := by
          intro h0
          rw [h0] at hhd
          exact hhd rfl
        exact lower_value_ne_zero (hlower c (by simp)) hc0
      · right
        simp [hlen]
    rw [natToHexStr_ofLE _ hds_ne hds_lt hds_canon]
    apply String.ext
    show ((((cs.map valueOfLowerHex).reverse).map toHexDigitChar).reverse) = cs
    rw [List.map_reverse, List.reverse_reverse, List.map_map]
    exact (List.map_congr_left
      (fun c hc => toHexDigitChar_valueOfLowerHex (hlower c hc))).trans (List.map_id _)

theorem decimalToHex_hexToDecimal_roundtrip_witness :
    ∃ n : Int, hexToDecimal "ff" = some n ∧ decimalToHex n = "ff" :=
  decimalToHex_hexToDecimal_roundtrip "ff" (by decide) (by decide) (by decide)

/-- Claim C8: for every `maxId ≥ 1`, every candidate produced by
`getRandomNumber 1 maxId` (with `Math.random()` returning `u ∈ [0, 1)`) is an
integer with `1 ≤ candidate ≤ maxId`. -/
theorem getRandomNumber_in_range (maxId : Int) (u : ℚ) (hmax : 1 ≤ maxId)
    (hu0 : 0 ≤ u) (hu1 : u < 1) :
    1 ≤ getRandomNumber 1 maxId u ∧ getRandomNumber 1 maxId u ≤ maxId := by
  unfold getRandomNumber
  have hq : (1 : ℚ) ≤ (maxId : ℚ) := by exact_mod_cast hmax
  rw [show ((maxId : ℚ) - ((1 : Int) : ℚ) + 1) = (maxId : ℚ) by push_cast; ring]
  constructor
  · have hfl : (0 : Int) ≤ ⌊u * (maxId : ℚ)⌋ :=
      Int.floor_nonneg.mpr (mul_nonneg hu0 (le_trans zero_le_one hq))
    omega
  · have hlt : u * (maxId : ℚ) < (maxId : ℚ) := by
      calc u * (maxId : ℚ) < 1 * (maxId : ℚ) :=
        mul_lt_mul_of_pos_right hu1 (lt_of_lt_of_le zero_lt_one hq)
      _ = (maxId : ℚ) := one_mul _
    have hfl : ⌊u * (maxId : ℚ)⌋ < maxId := Int.floor_lt.mpr hlt
    omega

theorem getRandomNumber_in_range_witness :
    1 ≤ getRandomNumber 1 5 (1 / 2) ∧ getRandomNumber 1 5 (1 / 2) ≤ 5 :=
  getRandomNumber_in_range 5 (1 / 2) (by norm_num) (by norm_num) (by norm_num)

/-! ## Facts about the probe loop -/

theorem runLoop_length_le (env : Env) (maxD : Option Int) :
    ∀ b k, (runLoop env maxD k b).2.1.length ≤ b
  | 0, k => by simp [runLoop]
  | b + 1, k => by
      have ih := runLoop_length_le env maxD b (k + 1)
      simp only [runLoop]
      split
      · simp
      · simp only [List.length_cons]
        omega

theorem runLoop_all_false (env : Env) (maxD : Option Int)
    (hall : ∀ j, checkMapExists (env.probe j) = false) :
    ∀ b k, (runLoop env maxD k b).1 = .exhausted ∧
      (runLoop env maxD k b).2.1.length = b ∧ (runLoop env maxD k b).2.2 = 0
  | 0, k => by simp [runLoop]
  | b + 1, k => by
      have ih := runLoop_all_false env maxD hall b (k + 1)
      simp only [runLoop, hall k]
      simp only [Bool.false_eq_true, if_false, List.length_cons]
      exact ⟨ih.1, by rw [ih.2.1], ih.2.2⟩

theorem runLoop_hit (env : Env) (maxD : Option Int) :
    ∀ n b k, n < b → (∀ j, j < n → checkMapExists (env.probe (k + j)) = false) →
      checkMapExists (env.probe (k + n)) = true →
      (runLoop env maxD k b).1 = detailOutcome (env.detail (k + n)) ∧
        (runLoop env maxD k b).2.1.length = n + 1 ∧ (runLoop env maxD k b).2.2 = 1
  | n, 0, k, hlt, _, _ => absurd hlt (Nat.not_lt_zero n)
  | 0, b + 1, k, _, _, hhit => by
      rw [Nat.add_zero] at hhit
      simp [runLoop, hhit]
  | n + 1, b + 1, k, hlt, hmiss, hhit => by
      have h0 : checkMapExists (env.probe k) = false := by
        have := hmiss 0 (Nat.succ_pos n)
        rwa [Nat.add_zero] at this
      have ih := runLoop_hit env maxD n b (k + 1) (by omega)
        (fun j hj => by
          have := hmiss (j + 1) (by omega)
          rwa [show k + (j + 1) = k + 1 + j by omega] at this)
        (by rwa [show k + (n + 1) = k + 1 + n by omega] at hhit)
      simp only [runLoop, h0, Bool.false_eq_true, if_false, List.length_cons]
      rw [show k + (n + 1) = k + 1 + n by omega]
      exact ⟨ih.1, by rw [ih.2.1], ih.2.2⟩

theorem runLoop_congr (env env' : Env) (maxD : Option Int)
    (hprobe : ∀ j, checkMapExists (env'.probe j) = checkMapExists (env.probe j))
    (hrand : env'.rand = env.rand) (hdetail : env'.detail = env.detail) :
    ∀ b k, runLoop env' maxD k b = runLoop env maxD k b
  | 0, _ => by simp [runLoop]
  | b + 1, k => by
      have ih := runLoop_congr env env' maxD hprobe hrand hdetail b (k + 1)
      simp only [runLoop, hprobe k, hrand, hdetail, ih]

theorem findRandomMap_ok (env : Env) (id : String) (h : env.latest = .ok id) :
    findRandomMap env =
      ⟨settleOutcome (runLoop env (hexToDecimal id) 0 maxAttempts).1,
        (runLoop env (hexToDecimal id) 0 maxAttempts).2.1,
        (runLoop env (hexToDecimal id) 0 maxAttempts).2.2⟩ := by
  simp [findRandomMap, fetchLatestMapId, h]

theorem findRandomMap_congr (env env' : Env)
    (hlatest : env'.latest = env.latest)
    (hprobe : ∀ j, checkMapExists (env'.probe j) = checkMapExists (env.probe j))
    (hrand : env'.rand = env.rand) (hdetail : env'.detail = env.detail) :
    findRandomMap env' = findRandomMap env := by
  cases hl : env.latest with
  | ok id =>
    have hl' : env'.latest = .ok id := by rw [hlatest, hl]
    rw [findRandomMap_ok env id hl, findRandomMap_ok env' id hl']
    rw [runLoop_congr env env' (hexToDecimal id) hprobe hrand hdetail maxAttempts 0]
  | httpError =>
    have hl' : env'.latest = .httpError := by rw [hlatest, hl]
    simp [findRandomMap, fetchLatestMapId, hl, hl']
  | netError m =>
    have hl' : env'.latest = .netError m := by rw [hlatest, hl]
    simp [findRandomMap, fetchLatestMapId, hl, hl']

/-! ## Claims about the search routine -/

/-- Claim C9: for every search invocation, regardless of outcome, the loading
flag is cleared on settlement, and exactly one of randomMap / error is set —
never both and never neither. -/
theorem search_settles_exactly_one (env : Env) :
    (findRandomMap env).state.isLoading = false ∧
      ((findRandomMap env).state.randomMap ≠ none ↔ (findRandomMap env).state.error = none) := by
  cases hl : env.latest with
  | ok id =>
    rw [findRandomMap_ok env id hl]
    cases hout : (runLoop env (hexToDecimal id) 0 maxAttempts).1 with
    | broke om => cases om <;> simp [settleOutcome]
    | exhausted => simp [settleOutcome]
    | thrown msg => simp [settleOutcome]
  | httpError => simp [findRandomMap, fetchLatestMapId, hl]
  | netError msg => simp [findRandomMap, fetchLatestMapId, hl]

/-- Claim C3: every search performs at most 10 existence-probe calls; and when
the latest-item lookup succeeded but every probe reports non-existence, the
search performs exactly 10 probe calls and fails with the not-found error. -/
theorem probe_budget_respected (env : Env) :
    (findRandomMap env).probedIds.length ≤ 10 ∧
      (∀ id, env.latest = .ok id → (∀ j, checkMapExists (env.probe j) = false) →
        (findRandomMap env).probedIds.length = 10 ∧
          (findRandomMap env).state.error = some notFoundMsg ∧
          (findRandomMap env).state.randomMap = none) := by
  constructor
  · cases hl : env.latest with
    | ok id =>
      rw [findRandomMap_ok env id hl]
      exact runLoop_length_le env (hexToDecimal id) maxAttempts 0
    | httpError => simp [findRandomMap, fetchLatestMapId, hl]
    | netError msg => simp [findRandomMap, fetchLatestMapId, hl]
  · intro id hl hall
    rw [findRandomMap_ok env id hl]
    have h := runLoop_all_false env (hexToDecimal id) hall maxAttempts 0
    refine ⟨h.2.1, ?_, ?_⟩ <;> rw [h.1] <;> rfl

theorem probe_budget_respected_witness :
    (findRandomMap envAllMiss).probedIds.length = 10 ∧
      (findRandomMap envAllMiss).state.error = some notFoundMsg ∧
      (findRandomMap envAllMiss).state.randomMap = none :=
  (probe_budget_respected envAllMiss).2 "10" rfl (fun _ => rfl)

/-- Claim C4: if the probes at attempts 0..n-1 report non-existence and the
probe at attempt n (n < 10, i.e. the (n+1)-st probe with N = n+1 ≤ 10) reports
existence, then exactly one detail fetch follows, exactly n+1 probe calls are
made in total (no further probes), and when that detail fetch returns item data
m the search succeeds with m. -/
theorem probe_hit_detail_fetch (env : Env) (id : String) (n : Nat)
    (hl : env.latest = .ok id) (hn : n < 10)
    (hmiss : ∀ j, j < n → checkMapExists (env.probe j) = false)
    (hhit : checkMapExists (env.probe n) = true) :
    (findRandomMap env).detailCalls = 1 ∧ (findRandomMap env).probedIds.length = n + 1 ∧
      (∀ (b : Bool) (m : MapDetails), env.detail n = .resp b (.value m) →
        (findRandomMap env).state = ⟨some m, false, none⟩) := by
  rw [findRandomMap_ok env id hl]
  have h := runLoop_hit env (hexToDecimal id) n maxAttempts 0 hn
    (fun j hj => by simpa using hmiss j hj) (by simpa using hhit)
  simp only [Nat.zero_add] at h
  refine ⟨h.2.2, h.2.1, ?_⟩
  intro b m hd
  show settleOutcome (runLoop env (hexToDecimal id) 0 maxAttempts).1 = _
  rw [h.1, hd]
  rfl

theorem probe_hit_detail_fetch_witness :
    (findRandomMap envHit).detailCalls = 1 ∧ (findRandomMap envHit).probedIds.length = 1 ∧
      (findRandomMap envHit).state = ⟨some sampleMapA, false, none⟩ := by
  have h := probe_hit_detail_fetch envHit "10" 0 rfl (by omega)
    (fun j hj => absurd hj (Nat.not_lt_zero j)) rfl
  exact ⟨h.1, h.2.1, h.2.2 true sampleMapA rfl⟩

/-- Claim C5: checkMapExists is total over its outcomes: a network error raised
during the existence check yields false ("does not exist") rather than an
exception, and replacing such a failed probe by a plain non-2xx non-existence
answer leaves the entire search result unchanged — the failure never aborts the
loop and is never surfaced to the caller. -/
theorem checkMapExists_absorbs_network_errors :
    (∀ msg, checkMapExists (.netError msg) = false) ∧
      (∀ (env : Env) (k : Nat) (msg : String), env.probe k = .netError msg →
        findRandomMap
            { env with probe := fun j => if j = k then .httpError else env.probe j } =
          findRandomMap env) := by
  refine ⟨fun _ => rfl, ?_⟩
  intro env k msg hk
  have hprobe : ∀ j, checkMapExists (if j = k then FetchResult.httpError else env.probe j) =
      checkMapExists (env.probe j) := by
    intro j
    by_cases hj : j = k
    · subst hj
      rw [if_pos rfl, hk]
      rfl
    · rw [if_neg hj]
  exact findRandomMap_congr env _ rfl hprobe rfl rfl

theorem checkMapExists_absorbs_network_errors_witness :
    checkMapExists (.netError "socket closed") = false ∧
      findRandomMap
          { envProbeErr with
            probe := fun j => if j = 0 then .httpError else envProbeErr.probe j } =
        findRandomMap envProbeErr :=
  ⟨checkMapExists_absorbs_network_errors.1 "socket closed",
    checkMapExists_absorbs_network_errors.2 envProbeErr 0 "socket closed" rfl⟩

/-- Claim C2 counterexample: when the latest-item lookup fails with a network
failure (rather than a non-2xx response), the search does fail immediately, but
the surfaced error message is the fetch failure's own message, not
"Failed to fetch latest map" as the claim states for all failure modes. -/
theorem latest_network_failure_cex :
    (findRandomMap envNetDown).state.error = some "NetworkDown" ∧
      (findRandomMap envNetDown).state.error ≠ some "Failed to fetch latest map" ∧
      (findRandomMap envNetDown).state.randomMap = none ∧
      (findRandomMap envNetDown).probedIds.length = 0 := by
  refine ⟨rfl, ?_, rfl, rfl⟩
  decide

/-- Claim C2 (amended): if the initial latest-item lookup fails, the search
terminates immediately with randomMap null and zero probe and detail calls; a
non-2xx response yields the error message "Failed to fetch latest map", while a
network failure surfaces the underlying fetch error's own message. -/
theorem latest_lookup_failure_immediate (env : Env) :
    (env.latest = .httpError →
      findRandomMap env = ⟨⟨none, false, some "Failed to fetch latest map"⟩, [], 0⟩) ∧
      (∀ msg, env.latest = .netError msg →
        findRandomMap env = ⟨⟨none, false, some msg⟩, [], 0⟩) := by
  constructor
  · intro hl
    simp [findRandomMap, fetchLatestMapId, hl]
  · intro msg hl
    simp [findRandomMap, fetchLatestMapId, hl]

theorem latest_lookup_failure_immediate_witness :
    findRandomMap envHttp500 = ⟨⟨none, false, some "Failed to fetch latest map"⟩, [], 0⟩ :=
  (latest_lookup_failure_immediate envHttp500).1 rfl

/-- Claim C1 counterexample: the first probe confirms existence and the
subsequent detail re-fetch resolves with a NON-SUCCESS status, yet the search
does not fail with a transport error: the unchecked response body is parsed and
the search succeeds with it. -/
theorem detail_status_not_checked_cex :
    checkMapExists (envDetail502.probe 0) = true ∧
      envDetail502.detail 0 = .resp false (.value sampleMapB) ∧
      (findRandomMap envDetail502).state.error = none ∧
      (findRandomMap envDetail502).state.randomMap = some sampleMapB := by
  refine ⟨rfl, rfl, ?_, ?_⟩ <;> decide

/-- Claim C1 (amended): after a confirmed-existing probe at attempt n, a detail
re-fetch that fails by network failure (or whose body fails to parse)
propagates to the search's error outcome: the search fails with that error
message and randomMap stays null. (A non-success HTTP status alone is not
detected: the body is parsed and used as the result.) -/
theorem detail_refetch_failure_propagates (env : Env) (id : String) (n : Nat)
    (hl : env.latest = .ok id) (hn : n < 10)
    (hmiss : ∀ j, j < n → checkMapExists (env.probe j) = false)
    (hhit : checkMapExists (env.probe n) = true) :
    ∀ msg, (env.detail n = .netError msg ∨ (∃ b, env.detail n = .resp b (.parseError msg))) →
      (findRandomMap env).state = ⟨none, false, some msg⟩ := by
  intro msg hd
  rw [findRandomMap_ok env id hl]
  have h := runLoop_hit env (hexToDecimal id) n maxAttempts 0 hn
    (fun j hj => by simpa using hmiss j hj) (by simpa using hhit)
  simp only [Nat.zero_add] at h
  show settleOutcome (runLoop env (hexToDecimal id) 0 maxAttempts).1 = _
  rw [h.1]
  rcases hd with hd | ⟨b, hd⟩ <;> rw [hd] <;> rfl

theorem detail_refetch_failure_propagates_witness :
    (findRandomMap envDetailNet).state = ⟨none, false, some "ECONNRESET"⟩ :=
  detail_refetch_failure_propagates envDetailNet "10" 0 rfl (by omega)
    (fun j hj => absurd hj (Nat.not_lt_zero j)) rfl "ECONNRESET" (Or.inl rfl)

end RandomMap
